import Mathlib

/-
Verification development for the ExpertMind client-side script
(src/backend/static/js/main.js).  The script is DOM/event glue around two
external libraries (pdf.js, showdown) and a backend HTTP API; the models
below are shallow embeddings of its functions: pure text processing is
embedded as functions on lists of characters, the mutable client state
(selected file, pdf document, page counters, chat box, notifications) as an
explicit state record with one transition function per event handler, and
each network operation as a function from the network outcome to its
observable effects.  Asynchronous fetch/promise callbacks are embedded by
passing the eventual response as an explicit argument; DOM-only effects with
no bearing on the claims (CSS classes, ring highlights, scroll position,
modal visibility) are not tracked.
-/

namespace ExpertMind

/- ===== C1: the in-page text-highlighting heuristic =====
   Model of highlightText, main.js lines 584-670.  Strings are embedded as
   lists of characters. -/

/-- JS regex word class backslash-w for ASCII input: letters, digits, underscore. -/
def isWordChar (c : Char) : Bool :=
  ('a' ≤ c && c ≤ 'z') || ('A' ≤ c && c ≤ 'Z') || ('0' ≤ c && c ≤ '9') || c == '_'

/-- JS regex whitespace class backslash-s (ECMAScript WhiteSpace and
    LineTerminator code points). -/
def isSpaceChar (c : Char) : Bool :=
  c == ' ' || c == '\t' || c == '\n' || c == '\r' || c == '\x0b' || c == '\x0c' ||
  c == '\u00A0' || c == '\u1680' || ('\u2000' ≤ c && c ≤ '\u200A') ||
  c == '\u2028' || c == '\u2029' || c == '\u202F' || c == '\u205F' ||
  c == '\u3000' || c == '\uFEFF'

/-- One character of searchText.replace with the regex class
    "not word, not whitespace" replaced by a space (main.js line 606). -/
def replaceNonWordKeepSpace (c : Char) : Char :=
  if !isWordChar c && !isSpaceChar c then ' ' else c

/-- One character under the claim's wording: every non-word character is
    replaced with a space. -/
def replaceNonWord (c : Char) : Char :=
  if !isWordChar c then ' ' else c

/-- Worker for JS String.split on one-or-more whitespace: `acc` is the
    current piece (reversed), `inSep` records that the previous character was
    part of a separator run. -/
def splitWSGo : List Char → List Char → Bool → List (List Char)
  | [], acc, _ => [acc.reverse]
  | c :: cs, acc, inSep =>
    if isSpaceChar c then
      if inSep then splitWSGo cs [] true
      else acc.reverse :: splitWSGo cs [] true
    else splitWSGo cs (c :: acc) false

/-- JS s.split over the whitespace-run regex (main.js line 607): empty pieces
    appear at the ends exactly as in JS. -/
def splitWS (s : List Char) : List (List Char) :=
  splitWSGo s [] false

/-- The searchWords computation of highlightText (main.js lines 605-609):
    lowercase, replace non-word non-space characters by spaces, split on
    whitespace runs, keep words longer than 3 characters, take the first 5. -/
def searchWords (searchText : List Char) : List (List Char) :=
  (((splitWS ((searchText.map Char.toLower).map replaceNonWordKeepSpace)).filter
      (fun w => decide (w.length > 3))).take 5)

/-- Key terms as the claim words them: lowercase, replace every non-word
    character with a space, split on whitespace, keep words longer than 3
    characters, take the first 5. -/
def claimKeyTerms (searchText : List Char) : List (List Char) :=
  (((splitWS ((searchText.map Char.toLower).map replaceNonWord)).filter
      (fun w => decide (w.length > 3))).take 5)

/-- List-of-characters analogue of a string starting with `w`. -/
def isPrefixList : List Char → List Char → Bool
  | [], _ => true
  | _ :: _, [] => false
  | a :: as, b :: bs => a == b && isPrefixList as bs

/-- JS String.includes: `w` occurs contiguously inside `s`. -/
def containsSub : List Char → List Char → Bool
  | [], w => w.isEmpty
  | a :: rest, w => isPrefixList w (a :: rest) || containsSub rest w

/-- The containsSearchTerm test of main.js line 619: the lowercased fragment
    string includes at least one search word. -/
def fragmentMatches (words : List (List Char)) (frag : List Char) : Bool :=
  words.any (fun w => containsSub (frag.map Char.toLower) w)

/-- The forEach scan over textContent.items (main.js lines 615-645): one
    flag per fragment, true when a highlight element is created; `created`
    is the highlightsCreated counter. -/
def highlightScan (words : List (List Char)) : List (List Char) → Nat → List Bool
  | [], _ => []
  | frag :: rest, created =>
    if fragmentMatches words frag = true ∧ created < 10 then
      true :: highlightScan words rest (created + 1)
    else
      false :: highlightScan words rest created

/-- highlightText (main.js lines 584-670) restricted to its text logic: which
    fragments of the current page receive a highlight element.  The early
    return on an empty search text (line 585) yields no highlights. -/
def highlightText (searchText : List Char) (frags : List (List Char)) : List Bool :=
  if searchText.isEmpty then frags.map (fun _ => false)
  else highlightScan (searchWords searchText) frags 0

/- ===== Client state model (C2, C7, C9, C10) =====
   The mutable variables of the DOMContentLoaded closure (main.js lines 5-9)
   together with the observable pieces of the DOM the claims are about.
   `pdfDoc` holds the page count of the loaded document object, `historyFor`
   the file whose chat history the chat box was (re)loaded with (none when
   the chat box is cleared), `loadRequestedUrl` the url last passed to
   loadPdf, and `notifications` the showNotification calls (message, type),
   most recent first. -/

structure ClientState where
  files : List String
  fileCount : Nat
  selectedFile : Option String
  pdfDoc : Option Nat
  currentPage : Nat
  totalPages : Nat
  loadRequestedUrl : Option String
  historyFor : Option String
  placeholderShown : Bool
  viewerShown : Bool
  overlayShown : Bool
  chatEnabled : Bool
  chatStatus : String
  notifications : List (String × String)
deriving DecidableEq

/-- updateChatStatus (main.js lines 674-678). -/
def updateChatStatus (status : String) (s : ClientState) : ClientState :=
  { s with chatStatus := status }

/-- enableChat (main.js lines 680-685). -/
def enableChat (enabled : Bool) (s : ClientState) : ClientState :=
  { s with chatEnabled := enabled,
           chatStatus := if enabled then "Ready - Ask about any document"
                         else "No documents available" }

/-- showNotification (main.js lines 871-905): records the (message, type)
    pair; the transient DOM node and its removal timer are not tracked. -/
def showNotification (message type' : String) (s : ClientState) : ClientState :=
  { s with notifications := (message, type') :: s.notifications }

/-- The synchronous part of loadPdf (main.js lines 474-514): show the loading
    overlay, swap placeholder for viewer, and either start
    pdfjsLib.getDocument on the url or (when pdf.js is not loaded) fail at
    once with a notification and restored placeholder. -/
def loadPdfStart (pdfjsAvailable : Bool) (url : String) (s : ClientState) : ClientState :=
  let s := { s with overlayShown := true, placeholderShown := false, viewerShown := true,
                    loadRequestedUrl := some url }
  if pdfjsAvailable then s
  else
    let s := { s with overlayShown := false }
    let s := showNotification "PDF viewer not available." "error" s
    { s with placeholderShown := true, viewerShown := false }

/-- The asynchronous continuation of loadPdf: the getDocument promise
    resolved with a document of `numPages` pages (then branch, main.js lines
    492-499) or rejected (catch branch, lines 500-506).  renderPage and
    updatePageControls touch none of the tracked fields. -/
def loadPdfFinish (pdfjsAvailable : Bool) (result : Option Nat) (s : ClientState) : ClientState :=
  if pdfjsAvailable then
    match result with
    | some numPages =>
        { s with pdfDoc := some numPages, totalPages := numPages, currentPage := 1,
                 overlayShown := false }
    | none =>
        let s := { s with overlayShown := false }
        let s := showNotification "Failed to load PDF." "error" s
        { s with placeholderShown := true, viewerShown := false }
  else s

/-- loadPdf with its eventual outcome applied (main.js lines 474-514):
    `result` is some page count when getDocument succeeds, none when it
    fails. -/
def loadPdf (pdfjsAvailable : Bool) (result : Option Nat) (url : String)
    (s : ClientState) : ClientState :=
  loadPdfFinish pdfjsAvailable result (loadPdfStart pdfjsAvailable url s)

/-- resetUI (main.js lines 1042-1065): clearHighlights and updatePageControls
    touch none of the tracked fields; clearing the chat box sets
    `historyFor` to none. -/
def resetUI (s : ClientState) : ClientState :=
  let s := { s with selectedFile := none, pdfDoc := none, currentPage := 1, totalPages := 0 }
  let s := { s with viewerShown := false, placeholderShown := true }
  let s := { s with historyFor := none }
  enableChat false s

/-- The file-button branch of the file-list click handler (main.js lines
    197-212): select the file, load its pdf, reload its chat history, set
    the status line and notify. -/
def fileBtnClickStep (f : String) (pdfjsAvailable : Bool) (loadResult : Option Nat)
    (s : ClientState) : ClientState :=
  let s := { s with selectedFile := some f }
  let s := loadPdf pdfjsAvailable loadResult ("/uploads/" ++ f) s
  let s := { s with historyFor := some f }
  let s := updateChatStatus ("Viewing: " ++ f) s
  showNotification ("Now viewing: " ++ f) "info" s

/-- The source-page navigation at the end of a successful /ask response
    (main.js lines 729-744): `oldDoc` is the pdfDoc value when the response
    handler ran (any loadPdf started in the same handler has not resolved
    yet). -/
def askNavigate (oldDoc : Option Nat) (sourcePage : Option Nat) (sourceContent : Option String)
    (s : ClientState) : ClientState :=
  match sourcePage with
  | some p =>
      if oldDoc.isSome then
        let s := { s with currentPage := p }
        match sourceContent with
        | some _ => showNotification ("Navigated to page " ++ toString p ++ " with highlighted source") "info" s
        | none => showNotification ("Navigated to page " ++ toString p ++ " for context") "info" s
      else s
  | none => s

/-- The success branch of askQuestion's /ask response handler (main.js lines
    714-745): set the status to Ready; when the response names a filename
    different from selectedFile, select it, start loading its pdf and
    notify (the chat history is NOT reloaded there); append the answer
    (chat-box contents tracked only through historyFor, which appending does
    not change); navigate to the source page using the pre-load pdfDoc; then
    let the started load resolve. -/
def askSuccessStep (respFilename : Option String) (sourcePage : Option Nat)
    (sourceContent : Option String) (pdfjsAvailable : Bool) (loadResult : Option Nat)
    (s : ClientState) : ClientState :=
  let oldDoc := s.pdfDoc
  let s0 := updateChatStatus "Ready" s
  match respFilename with
  | some f =>
      if s0.selectedFile = some f then askNavigate oldDoc sourcePage sourceContent s0
      else
        let s1 := { s0 with selectedFile := some f }
        let s2 := loadPdfStart pdfjsAvailable ("/uploads/" ++ f) s1
        let s3 := showNotification ("Switched to document: " ++ f) "info" s2
        let s4 := askNavigate oldDoc sourcePage sourceContent s3
        loadPdfFinish pdfjsAvailable loadResult s4
  | none => askNavigate oldDoc sourcePage sourceContent s0

/-- addFileToList (main.js lines 907-992): return unchanged when a file
    button with this data-filename already exists; otherwise insert the
    file at the front of the list, bump the count, enable chat when it is
    the first document, then auto-select the new file (load its pdf, reload
    its history, enable chat, set the status). -/
def addFileToList (f : String) (pdfjsAvailable : Bool) (loadResult : Option Nat)
    (s : ClientState) : ClientState :=
  if s.files.contains f then s
  else
    let s := { s with files := f :: s.files, fileCount := s.fileCount + 1 }
    let s := if s.files.length = 1 then enableChat true s else s
    let s := { s with selectedFile := some f }
    let s := loadPdf pdfjsAvailable loadResult ("/uploads/" ++ f) s
    let s := { s with historyFor := some f }
    let s := enableChat true s
    updateChatStatus "Connected to document" s

/-- The success branch of the /upload response handler (main.js lines
    166-171): close the modal (untracked), notify, add the file. -/
def uploadSuccessStep (f : String) (pdfjsAvailable : Bool) (loadResult : Option Nat)
    (s : ClientState) : ClientState :=
  let s := showNotification "PDF uploaded successfully!" "success" s
  addFileToList f pdfjsAvailable loadResult s

/-- The success branch of deleteDocument's /delete response handler (main.js
    lines 1002-1033): hide the overlay shown at request time, notify with
    the server's success message, remove the list item and decrement the
    count, reset the view when the deleted file was selected, and when no
    documents remain disable chat and clear the chat box. -/
def deleteSuccessStep (f : String) (successMsg : String) (s : ClientState) : ClientState :=
  let s := { s with overlayShown := false }
  let s := showNotification successMsg "success" s
  let s := { s with files := s.files.erase f, fileCount := s.fileCount - 1 }
  let s := if s.selectedFile = some f then resetUI s else s
  if s.files.isEmpty then
    let s := enableChat false s
    { s with historyFor := none }
  else s

/-- A click on one of the page-navigation buttons (main.js lines 216-235). -/
inductive NavClick
  | prev
  | next
deriving DecidableEq

/-- The prev-page and next-page click handlers (main.js lines 216-235):
    renderPage and updatePageControls touch none of the tracked fields. -/
def navStep (s : ClientState) : NavClick → ClientState
  | .prev => if s.currentPage > 1 then { s with currentPage := s.currentPage - 1 } else s
  | .next => if s.currentPage < s.totalPages then { s with currentPage := s.currentPage + 1 } else s

/-- A sequence of page-navigation clicks, oldest first. -/
def applyNavClicks (s : ClientState) (clicks : List NavClick) : ClientState :=
  clicks.foldl navStep s

/-- A concrete reachable-looking state used for counterexamples and
    witnesses: one uploaded document a.pdf, selected and viewed. -/
def exampleState : ClientState :=
  { files := ["a.pdf"], fileCount := 1, selectedFile := some "a.pdf",
    pdfDoc := some 5, currentPage := 2, totalPages := 5,
    loadRequestedUrl := some "/uploads/a.pdf", historyFor := some "a.pdf",
    placeholderShown := false, viewerShown := true, overlayShown := false,
    chatEnabled := true, chatStatus := "Ready", notifications := [] }

/- ===== Network operations model (C3, C6) ===== -/

/-- The six operations of the script that issue an HTTP request. -/
inductive ClientOp
  | upload
  | ask
  | feedback
  | historyLoad
  | clearChat
  | deleteDoc
deriving DecidableEq

/-- The path each operation requests (main.js lines 157, 708, 390, 822, 846,
    996; the /history request carries a filename query string). -/
def requestPath : ClientOp → String
  | .upload => "/upload"
  | .ask => "/ask"
  | .feedback => "/feedback"
  | .historyLoad => "/history"
  | .clearChat => "/clear_chat"
  | .deleteDoc => "/delete"

/-- All fetch-issuing operations of main.js. -/
def allClientOps : List ClientOp :=
  [.upload, .ask, .feedback, .historyLoad, .clearChat, .deleteDoc]

/-- Outcome of one fetch: a response taken by the success branch, a response
    taken by the error branch (msg is the truthy data.error field, or "" when
    the field is absent), or a rejected promise (network failure / bad
    JSON). -/
inductive NetOutcome
  | ok
  | errResponse (msg : String)
  | netFailure
deriving DecidableEq

/-- The externally observable effects of running one operation: every path
    requested (in order), alert boxes, notifications of type error, chat
    messages appended by error-handling branches, and the final chat status
    when the operation sets one. -/
structure OpEffects where
  requests : List String := []
  alerts : List String := []
  errorNotifications : List String := []
  errorChatMessages : List String := []
  finalChatStatus : Option String := none
deriving DecidableEq

/-- Response/failure handling of each operation, from main.js: upload lines
    157-177, ask lines 708-752, feedback lines 390-435, history lines
    822-842 (both failure branches only console.error), clear chat lines
    846-869 (success reloads the history), delete lines 996-1040. -/
def runOp : ClientOp → NetOutcome → OpEffects
  | .upload, .ok => { requests := ["/upload"] }
  | .upload, .errResponse msg => { requests := ["/upload"], alerts := [msg] }
  | .upload, .netFailure =>
      { requests := ["/upload"], alerts := ["Upload failed. Please try again."] }
  | .ask, .ok => { requests := ["/ask"], finalChatStatus := some "Ready" }
  | .ask, .errResponse msg =>
      { requests := ["/ask"], errorChatMessages := [msg], finalChatStatus := some "Ready" }
  | .ask, .netFailure =>
      { requests := ["/ask"],
        errorChatMessages := ["Sorry, I encountered an error. Please try again."],
        finalChatStatus := some "Error" }
  | .feedback, .ok => { requests := ["/feedback"] }
  | .feedback, .errResponse msg =>
      { requests := ["/feedback"],
        errorNotifications := [if msg = "" then "Failed to submit feedback." else msg] }
  | .feedback, .netFailure =>
      { requests := ["/feedback"],
        errorNotifications := ["An error occurred while submitting feedback."] }
  | .historyLoad, .ok => { requests := ["/history"] }
  | .historyLoad, .errResponse _ => { requests := ["/history"] }
  | .historyLoad, .netFailure => { requests := ["/history"] }
  | .clearChat, .ok => { requests := ["/clear_chat", "/history"] }
  | .clearChat, .errResponse msg =>
      { requests := ["/clear_chat"], errorNotifications := [msg] }
  | .clearChat, .netFailure =>
      { requests := ["/clear_chat"], errorNotifications := ["Failed to clear chat history."] }
  | .deleteDoc, .ok => { requests := ["/delete"] }
  | .deleteDoc, .errResponse msg =>
      { requests := ["/delete"], errorNotifications := [msg] }
  | .deleteDoc, .netFailure =>
      { requests := ["/delete"], errorNotifications := ["Failed to delete document."] }

/-- All user-visible error reports of one operation run: alerts, error
    notifications, and error chat messages. -/
def userVisibleErrorReports (e : OpEffects) : List String :=
  e.alerts ++ e.errorNotifications ++ e.errorChatMessages

/- ===== Feedback capture model (C4) ===== -/

/-- JS String.trim over the whitespace class. -/
def jsTrim (s : String) : String :=
  String.mk (((s.data.dropWhile isSpaceChar).reverse.dropWhile isSpaceChar).reverse)

/-- What one sendFeedback call does: either one POST /feedback with this
    JSON body, or an error notification and no request. -/
inductive FeedbackResult
  | sent (filename question answer feedbackType additionalInfo : String)
  | errorNotice (msg : String)
deriving DecidableEq

/-- sendFeedback (main.js lines 366-435): `filename` is the decoded
    data-filename of the feedback container.  The response handling of the
    issued request is modelled by runOp .feedback. -/
def sendFeedback (question answer feedbackType additionalInfo filename : String) :
    FeedbackResult :=
  if filename = "" then
    .errorNotice "Cannot determine which document this feedback is for"
  else if question = "" ∨ answer = "" ∨ feedbackType = "" then
    .errorNotice "Missing required information for feedback"
  else
    .sent filename question answer feedbackType additionalInfo

/-- Result of a click on a feedback button. -/
inductive FeedbackClickOutcome
  | immediate (r : FeedbackResult)
  | modalOpened
  | ignored
deriving DecidableEq

/-- The chatBox feedback click handler (main.js lines 277-296): `kind` is
    the button's data-feedback value, question and answer the decoded
    container dataset values. -/
def feedbackButtonClick (kind question answer filename : String) : FeedbackClickOutcome :=
  if kind = "like" then .immediate (sendFeedback question answer "like" "" filename)
  else if kind = "dislike" then .modalOpened
  else .ignored

/-- Result of submitting the dislike-feedback modal form. -/
inductive DislikeModalResult
  | noSend
  | submitted (r : FeedbackResult)
deriving DecidableEq

/-- The dislike modal's form submit handler (main.js lines 352-363): send
    only when the trimmed textarea value is non-empty, otherwise keep the
    modal open and flash the textarea. -/
def dislikeModalSubmit (question answer filename rawText : String) : DislikeModalResult :=
  if jsTrim rawText = "" then .noSend
  else .submitted (sendFeedback question answer "dislike" (jsTrim rawText) filename)

/- ===== appendMessage model (C5) =====
   appendMessage, main.js lines 754-813.  The template-literal HTML is
   embedded as string concatenation; inert SVG icon bodies and insignificant
   template whitespace are elided; converter.makeHtml (showdown) and
   encodeURIComponent are external and passed as function parameters. -/

/-- The user-message template around the raw interpolated content (main.js
    lines 764-770). -/
def userMsgHeader : String :=
  "<div class=\"max-w-[80%]\"><div class=\"bg-gradient-to-r from-purple-600 to-pink-600 text-white p-4 rounded-xl rounded-br-none shadow-md\"><p class=\"text-sm leading-relaxed\">"

/-- Closing tags of the user-message template. -/
def userMsgSuffix : String :=
  "</p></div></div>"

/-- The like button of the feedback block (main.js lines 779-783). -/
def likeButtonHtml : String :=
  "<button class=\"feedback-btn like-btn p-2 rounded-full hover:bg-green-100 transition-colors text-gray-400 hover:text-green-600\" data-feedback=\"like\" title=\"Helpful\"><svg></svg></button>"

/-- The dislike button of the feedback block (main.js lines 784-788). -/
def dislikeButtonHtml : String :=
  "<button class=\"feedback-btn dislike-btn p-2 rounded-full hover:bg-red-100 transition-colors text-gray-400 hover:text-red-600\" data-feedback=\"dislike\" title=\"Not Helpful\"><svg></svg></button>"

/-- The feedback container (main.js lines 776-790); the doubled closing
    angle bracket after the opening tag reproduces the source text. -/
def feedbackContainerHtml (encodeURIComponent : String → String)
    (question answer filenameAttr : String) : String :=
  "<div class=\"feedback-container mt-3 flex items-center space-x-2\" data-question=\"" ++
    encodeURIComponent question ++ "\" data-answer=\"" ++ encodeURIComponent answer ++
    "\" data-filename=\"" ++ encodeURIComponent filenameAttr ++
    "\">><span class=\"text-xs text-gray-500\">Was this helpful?</span>" ++
    likeButtonHtml ++ dislikeButtonHtml ++ "</div>"

/-- The sourceInfo fragment (main.js line 773); the decorative glyph before
    "Source" is elided. -/
def sourceInfoHtml : Option Nat → String
  | some p => "<p class=\"text-xs text-gray-500 mt-2\">Source: Page " ++ toString p ++ "</p>"
  | none => ""

/-- Opening part of the bot-message template up to the markdown body
    (main.js lines 792-798). -/
def botMsgHeader : String :=
  "<div class=\"flex items-start space-x-3 max-w-[80%]\"><div class=\"flex-shrink-0 w-8 h-8 bg-gradient-to-br from-purple-500 to-pink-600 rounded-lg flex items-center justify-center shadow-sm\"><svg></svg></div><div class=\"bg-white p-4 rounded-xl rounded-tl-none shadow-md\"><div class=\"markdown-body\">"

/-- The bot branch of appendMessage (main.js lines 771-804). -/
def botMessageHtml (makeHtml encodeURIComponent : String → String) (content : String)
    (sourcePage : Option Nat) (question filenameAttr : String) : String :=
  botMsgHeader ++ makeHtml content ++ "</div>" ++ sourceInfoHtml sourcePage ++
    feedbackContainerHtml encodeURIComponent question content filenameAttr ++
    "</div></div>"

/-- appendMessage (main.js lines 754-813) as the contentHtml it inserts:
    the user branch interpolates the content raw, the bot branch runs it
    through converter.makeHtml and attaches the feedback block whose
    data-filename is filename, or selectedFile, or empty. -/
def appendMessageHtml (makeHtml encodeURIComponent : String → String)
    (selectedFile : Option String) (role content : String) (sourcePage : Option Nat)
    (question filename : Option String) : String :=
  if role = "user" then userMsgHeader ++ content ++ userMsgSuffix
  else
    botMessageHtml makeHtml encodeURIComponent content sourcePage
      (question.getD "") ((filename.orElse (fun _ => selectedFile)).getD "")

/-- String version of JS includes, via the character-list model. -/
def strContains (s w : String) : Bool :=
  containsSub s.data w.data

/- ===== Upload validation model (C8) ===== -/

/-- The file chosen in the upload form, as the handler inspects it. -/
structure ChosenFile where
  type' : String
  size : Nat
deriving DecidableEq

/-- What the upload submit handler does before any response arrives. -/
inductive UploadAction
  | alert (msg : String)
  | request (path : String)
deriving DecidableEq

/-- The upload form submit handler's validation (main.js lines 137-160):
    `file` is pdfFileInput.files[0], none when no file is chosen. -/
def uploadSubmit (file : Option ChosenFile) : UploadAction :=
  match file with
  | none => .alert "Please select a PDF file."
  | some f =>
      if f.type' ≠ "application/pdf" then .alert "Please select a PDF file."
      else if f.size > 10 * 1024 * 1024 then .alert "File size must be less than 10MB."
      else .request "/upload"

/-- Characters that the whitespace-splitter cannot tell apart: equal, or
    both whitespace. -/
def spaceAgree (a b : Char) : Prop :=
  a = b ∨ (isSpaceChar a = true ∧ isSpaceChar b = true)

/- ===== Theorems ===== -/

theorem splitWSGo_congr {l₁ l₂ : List Char} (h : List.Forall₂ spaceAgree l₁ l₂) :
    ∀ (acc : List Char) (inSep : Bool), splitWSGo l₁ acc inSep = splitWSGo l₂ acc inSep := by
  induction h with
  | nil => intro acc inSep; rfl
  | @cons a b l₁' l₂' hab _ ih =>
    intro acc inSep
    rcases hab with rfl | ⟨ha, hb⟩
    · simp only [splitWSGo]
      by_cases hs : isSpaceChar a = true
      · simp [hs, ih]
      · simp [hs, ih]
    · simp only [splitWSGo, ha, hb, if_pos]
      cases inSep <;> simp [ih]

theorem spaceAgree_replace (c : Char) :
    spaceAgree (replaceNonWordKeepSpace c) (replaceNonWord c) := by
  unfold spaceAgree replaceNonWordKeepSpace replaceNonWord
  by_cases hw : isWordChar c = true
  · simp [hw]
  · by_cases hs : isSpaceChar c = true
    · right
      simp only [Bool.not_eq_true] at hw
      simp [hw, hs]
      decide
    · left
      simp only [Bool.not_eq_true] at hw hs
      simp [hw, hs]

theorem forall₂_replace (m : List Char) :
    List.Forall₂ spaceAgree (m.map replaceNonWordKeepSpace) (m.map replaceNonWord) := by
  induction m with
  | nil => exact List.Forall₂.nil
  | cons c cs ih => exact List.Forall₂.cons (spaceAgree_replace c) ih

/-- The claim's derivation of key terms agrees with the source's: whitespace
    characters are separators whether or not they are first replaced by a
    space. -/
theorem claimKeyTerms_eq (s : List Char) : claimKeyTerms s = searchWords s := by
  unfold claimKeyTerms searchWords splitWS
  rw [splitWSGo_congr (forall₂_replace (s.map Char.toLower)) [] false]

theorem highlightScan_getElem? (words : List (List Char)) :
    ∀ (frags : List (List Char)) (created i : Nat),
      (highlightScan words frags created)[i]? = some true ↔
        ((∃ frag, frags[i]? = some frag ∧ fragmentMatches words frag = true) ∧
         created + ((highlightScan words frags created).take i).count true < 10) := by
  intro frags
  induction frags with
  | nil => intro created i; simp [highlightScan]
  | cons f rest ih =>
    intro created i
    by_cases hc : fragmentMatches words f = true ∧ created < 10
    · have hscan : highlightScan words (f :: rest) created =
          true :: highlightScan words rest (created + 1) := by
        simp [highlightScan, hc]
      rw [hscan]
      cases i with
      | zero => simp [hc.1, hc.2]
      | succ n =>
        have hcount : ((true :: highlightScan words rest (created + 1)).take (n + 1)).count true
            = ((highlightScan words rest (created + 1)).take n).count true + 1 := by
          simp [List.count_cons]
        rw [List.getElem?_cons_succ, ih (created + 1) n, List.getElem?_cons_succ, hcount]
        constructor
        · rintro ⟨hfrag, hlt⟩
          exact ⟨hfrag, by omega⟩
        · rintro ⟨hfrag, hlt⟩
          exact ⟨hfrag, by omega⟩
    · have hscan : highlightScan words (f :: rest) created =
          false :: highlightScan words rest created := by
        simp [highlightScan, hc]
      rw [hscan]
      cases i with
      | zero =>
        simp only [List.getElem?_cons_zero, List.take_zero, List.count_nil, Nat.add_zero]
        constructor
        · intro h; cases h
        · rintro ⟨⟨frag, hfrag, hm⟩, hlt⟩
          cases hfrag
          exact absurd ⟨hm, hlt⟩ hc
      | succ n =>
        have hcount : ((false :: highlightScan words rest created).take (n + 1)).count true
            = ((highlightScan words rest created).take n).count true := by
          simp [List.count_cons]
        rw [List.getElem?_cons_succ, ih created n, List.getElem?_cons_succ, hcount]

/-- C1: the in-page text-highlighting heuristic is substring containment:
    the key terms of a search text are obtained by lowercasing it, replacing
    every non-word character with a space, splitting on whitespace, keeping
    the words longer than 3 characters and taking the first 5; scanning the
    page's text fragments in order, fragment i receives a highlight element
    if and only if its lowercased string contains one of those words as a
    substring and fewer than 10 highlights were created on the fragments
    before it. -/
theorem c1_highlight_characterization (searchText : List Char)
    (frags : List (List Char)) (i : Nat) :
    (highlightText searchText frags)[i]? = some true ↔
      ((∃ frag, frags[i]? = some frag ∧
          fragmentMatches (claimKeyTerms searchText) frag = true) ∧
       ((highlightText searchText frags).take i).count true < 10) := by
  rw [claimKeyTerms_eq]
  unfold highlightText
  by_cases hst : searchText.isEmpty
  · rw [List.isEmpty_iff] at hst
    subst hst
    have hsw : searchWords [] = [] := rfl
    simp [hsw, fragmentMatches, List.getElem?_replicate]
  · simp only [hst, if_false, Bool.false_eq_true]
    have h := highlightScan_getElem? (searchWords searchText) frags 0 i
    simpa using h

theorem loadPdf_selectedFile (a : Bool) (r : Option Nat) (u : String) (s : ClientState) :
    (loadPdf a r u s).selectedFile = s.selectedFile := by
  cases a <;> cases r <;> rfl

theorem loadPdf_historyFor (a : Bool) (r : Option Nat) (u : String) (s : ClientState) :
    (loadPdf a r u s).historyFor = s.historyFor := by
  cases a <;> cases r <;> rfl

theorem loadPdf_files (a : Bool) (r : Option Nat) (u : String) (s : ClientState) :
    (loadPdf a r u s).files = s.files := by
  cases a <;> cases r <;> rfl

theorem loadPdf_loadRequestedUrl (a : Bool) (r : Option Nat) (u : String) (s : ClientState) :
    (loadPdf a r u s).loadRequestedUrl = some u := by
  cases a <;> cases r <;> rfl

theorem loadPdfStart_selectedFile (a : Bool) (u : String) (s : ClientState) :
    (loadPdfStart a u s).selectedFile = s.selectedFile := by
  cases a <;> rfl

theorem loadPdfStart_historyFor (a : Bool) (u : String) (s : ClientState) :
    (loadPdfStart a u s).historyFor = s.historyFor := by
  cases a <;> rfl

theorem loadPdfStart_loadRequestedUrl (a : Bool) (u : String) (s : ClientState) :
    (loadPdfStart a u s).loadRequestedUrl = some u := by
  cases a <;> rfl

theorem loadPdfFinish_selectedFile (a : Bool) (r : Option Nat) (s : ClientState) :
    (loadPdfFinish a r s).selectedFile = s.selectedFile := by
  cases a <;> cases r <;> rfl

theorem loadPdfFinish_historyFor (a : Bool) (r : Option Nat) (s : ClientState) :
    (loadPdfFinish a r s).historyFor = s.historyFor := by
  cases a <;> cases r <;> rfl

theorem loadPdfFinish_loadRequestedUrl (a : Bool) (r : Option Nat) (s : ClientState) :
    (loadPdfFinish a r s).loadRequestedUrl = s.loadRequestedUrl := by
  cases a <;> cases r <;> rfl

theorem askNavigate_selectedFile (d : Option Nat) (sp : Option Nat) (sc : Option String)
    (s : ClientState) : (askNavigate d sp sc s).selectedFile = s.selectedFile := by
  cases sp <;> cases sc <;> cases d <;> simp [askNavigate, showNotification]

theorem askNavigate_historyFor (d : Option Nat) (sp : Option Nat) (sc : Option String)
    (s : ClientState) : (askNavigate d sp sc s).historyFor = s.historyFor := by
  cases sp <;> cases sc <;> cases d <;> simp [askNavigate, showNotification]

theorem askNavigate_loadRequestedUrl (d : Option Nat) (sp : Option Nat) (sc : Option String)
    (s : ClientState) : (askNavigate d sp sc s).loadRequestedUrl = s.loadRequestedUrl := by
  cases sp <;> cases sc <;> cases d <;> simp [askNavigate, showNotification]

/-- C2 (amended): on a file-button click and on the auto-selection of a
    newly uploaded file, the pdf viewer is loaded from /uploads/<file> and
    the chat box is reloaded with that file's history; when an /ask response
    names a filename different from selectedFile, the pdf viewer is loaded
    from /uploads/<file> but the chat box is NOT reloaded (the answer is
    appended to the transcript already shown); when the currently selected
    document is deleted, selectedFile, pdfDoc, currentPage and totalPages
    are reset to none, none, 1, 0 and the chat box is cleared. -/
theorem c2_state_sync (s : ClientState) (f successMsg : String) (avail : Bool)
    (res : Option Nat) (sp : Option Nat) (sc : Option String) :
    ((fileBtnClickStep f avail res s).selectedFile = some f ∧
     (fileBtnClickStep f avail res s).loadRequestedUrl = some ("/uploads/" ++ f) ∧
     (fileBtnClickStep f avail res s).historyFor = some f) ∧
    (s.files.contains f = false →
      (addFileToList f avail res s).selectedFile = some f ∧
      (addFileToList f avail res s).loadRequestedUrl = some ("/uploads/" ++ f) ∧
      (addFileToList f avail res s).historyFor = some f) ∧
    (s.selectedFile ≠ some f →
      (askSuccessStep (some f) sp sc avail res s).selectedFile = some f ∧
      (askSuccessStep (some f) sp sc avail res s).loadRequestedUrl = some ("/uploads/" ++ f) ∧
      (askSuccessStep (some f) sp sc avail res s).historyFor = s.historyFor) ∧
    (s.selectedFile = some f →
      (deleteSuccessStep f successMsg s).selectedFile = none ∧
      (deleteSuccessStep f successMsg s).pdfDoc = none ∧
      (deleteSuccessStep f successMsg s).currentPage = 1 ∧
      (deleteSuccessStep f successMsg s).totalPages = 0 ∧
      (deleteSuccessStep f successMsg s).historyFor = none) := by
  refine ⟨⟨?_, ?_, ?_⟩, fun hnew => ?_, fun hne => ⟨?_, ?_, ?_⟩, fun hsel => ?_⟩
  · simp [fileBtnClickStep, updateChatStatus, showNotification, loadPdf_selectedFile]
  · simp [fileBtnClickStep, updateChatStatus, showNotification, loadPdf_loadRequestedUrl]
  · simp [fileBtnClickStep, updateChatStatus, showNotification]
  · have hnew' : ¬ f ∈ s.files := by simpa using hnew
    refine ⟨?_, ?_, ?_⟩
    · simp [addFileToList, hnew', updateChatStatus, showNotification, enableChat,
        loadPdf_selectedFile]
    · simp [addFileToList, hnew', updateChatStatus, showNotification, enableChat,
        loadPdf_loadRequestedUrl]
    · simp [addFileToList, hnew', updateChatStatus, showNotification, enableChat]
  · simp [askSuccessStep, updateChatStatus, hne, loadPdfFinish_selectedFile,
      askNavigate_selectedFile, showNotification, loadPdfStart_selectedFile]
  · simp [askSuccessStep, updateChatStatus, hne, loadPdfFinish_loadRequestedUrl,
      askNavigate_loadRequestedUrl, showNotification, loadPdfStart_loadRequestedUrl]
  · simp [askSuccessStep, updateChatStatus, hne, loadPdfFinish_historyFor,
      askNavigate_historyFor, showNotification, loadPdfStart_historyFor]
  · have hsel2 : (showNotification successMsg "success"
        { s with overlayShown := false }).selectedFile = some f := hsel
    simp only [deleteSuccessStep, showNotification, hsel2]
    split <;> simp [resetUI, enableChat, showNotification, hsel]

/-- C2 counterexample: from a state viewing a.pdf (chat box loaded with
    a.pdf's history), an /ask response naming b.pdf changes the selected
    document but the chat box still holds a.pdf's history, so the claimed
    reload on every selection change fails on the /ask path. -/
theorem c2_counterexample :
    (askSuccessStep (some "b.pdf") none none true (some 3) exampleState).selectedFile
        = some "b.pdf" ∧
    (askSuccessStep (some "b.pdf") none none true (some 3) exampleState).historyFor
        = some "a.pdf" ∧
    (some "a.pdf" : Option String) ≠ some "b.pdf" := by
  refine ⟨?_, ?_, by decide⟩ <;> decide

/-- Closed instance of c2_state_sync at a concrete state. -/
theorem c2_state_sync_witness :
    (fileBtnClickStep "b.pdf" true (some 4) exampleState).historyFor = some "b.pdf" ∧
    (addFileToList "c.pdf" true (some 2) exampleState).selectedFile = some "c.pdf" ∧
    (askSuccessStep (some "b.pdf") none none true (some 3) exampleState).historyFor
        = exampleState.historyFor ∧
    (deleteSuccessStep "a.pdf" "Deleted" exampleState).selectedFile = none := by
  refine ⟨(c2_state_sync exampleState "b.pdf" "x" true (some 4) none none).1.2.2,
    ((c2_state_sync exampleState "c.pdf" "x" true (some 2) none none).2.1 (by decide)).1,
    ((c2_state_sync exampleState "b.pdf" "x" true (some 3) none none).2.2.1 (by decide)).2.2,
    ((c2_state_sync exampleState "a.pdf" "Deleted" true (some 1) none none).2.2.2
      (by decide)).1⟩

/-- C7: loadPdf obtains documents only through pdfjsLib.getDocument (the
    `result` argument); on success it sets pdfDoc to the loaded document,
    totalPages to its page count and currentPage to 1; on failure, and when
    pdfjsLib is undefined, it hides the loading overlay, shows the matching
    error notification, restores the placeholder, hides the viewer and
    leaves pdfDoc, currentPage and totalPages unchanged. -/
theorem c7_loadPdf_delegation (s : ClientState) (url : String) (n : Nat)
    (result : Option Nat) (avail : Bool) :
    ((loadPdf true (some n) url s).pdfDoc = some n ∧
     (loadPdf true (some n) url s).totalPages = n ∧
     (loadPdf true (some n) url s).currentPage = 1 ∧
     (loadPdf true (some n) url s).overlayShown = false) ∧
    ((loadPdf true none url s).overlayShown = false ∧
     (loadPdf true none url s).notifications =
       ("Failed to load PDF.", "error") :: s.notifications ∧
     (loadPdf true none url s).placeholderShown = true ∧
     (loadPdf true none url s).viewerShown = false ∧
     (loadPdf true none url s).pdfDoc = s.pdfDoc ∧
     (loadPdf true none url s).currentPage = s.currentPage ∧
     (loadPdf true none url s).totalPages = s.totalPages) ∧
    ((loadPdf false result url s).overlayShown = false ∧
     (loadPdf false result url s).notifications =
       ("PDF viewer not available.", "error") :: s.notifications ∧
     (loadPdf false result url s).placeholderShown = true ∧
     (loadPdf false result url s).viewerShown = false ∧
     (loadPdf false result url s).pdfDoc = s.pdfDoc ∧
     (loadPdf false result url s).currentPage = s.currentPage ∧
     (loadPdf false result url s).totalPages = s.totalPages) ∧
    ((loadPdf avail result url s).pdfDoc = s.pdfDoc ∨
     (avail = true ∧ (loadPdf avail result url s).pdfDoc = result)) := by
  refine ⟨⟨rfl, rfl, rfl, rfl⟩, ⟨rfl, rfl, rfl, rfl, rfl, rfl, rfl⟩, ?_, ?_⟩
  · cases result <;> exact ⟨rfl, rfl, rfl, rfl, rfl, rfl, rfl⟩
  · cases avail
    · left; cases result <;> rfl
    · cases result
      · left; rfl
      · right; exact ⟨rfl, rfl⟩

theorem navStep_invariant (s : ClientState) (c : NavClick)
    (h1 : 1 ≤ s.currentPage) (h2 : s.currentPage ≤ s.totalPages) :
    1 ≤ (navStep s c).currentPage ∧
      (navStep s c).currentPage ≤ (navStep s c).totalPages := by
  cases c with
  | prev =>
    by_cases h : s.currentPage > 1
    · simp only [navStep, if_pos h]
      exact ⟨by omega, by omega⟩
    · simp only [navStep, if_neg h]
      exact ⟨h1, h2⟩
  | next =>
    by_cases h : s.currentPage < s.totalPages
    · simp only [navStep, if_pos h]
      exact ⟨by omega, by omega⟩
    · simp only [navStep, if_neg h]
      exact ⟨h1, h2⟩

/-- C9: starting from a state with 1 ≤ currentPage ≤ totalPages, any
    sequence of previous-page and next-page clicks preserves
    1 ≤ currentPage ≤ totalPages, and a successful loadPdf of a document
    with at least one page establishes the invariant by setting currentPage
    to 1 and totalPages to the page count. -/
theorem c9_page_navigation_bounds :
    (∀ (s : ClientState) (clicks : List NavClick),
       1 ≤ s.currentPage → s.currentPage ≤ s.totalPages →
       1 ≤ (applyNavClicks s clicks).currentPage ∧
         (applyNavClicks s clicks).currentPage ≤ (applyNavClicks s clicks).totalPages) ∧
    (∀ (s : ClientState) (url : String) (n : Nat), 1 ≤ n →
       (loadPdf true (some n) url s).currentPage = 1 ∧
       (loadPdf true (some n) url s).totalPages = n ∧
       1 ≤ (loadPdf true (some n) url s).currentPage ∧
       (loadPdf true (some n) url s).currentPage ≤ (loadPdf true (some n) url s).totalPages) := by
  constructor
  · intro s clicks
    induction clicks generalizing s with
    | nil => intro h1 h2; exact ⟨h1, h2⟩
    | cons c cs ih =>
        intro h1 h2
        have hstep := navStep_invariant s c h1 h2
        exact ih (navStep s c) hstep.1 hstep.2
  · intro s url n hn
    exact ⟨rfl, rfl, le_refl 1, hn⟩

/-- Closed instance of c9_page_navigation_bounds at a concrete state. -/
theorem c9_page_navigation_bounds_witness :
    (1 ≤ (applyNavClicks exampleState [NavClick.next, NavClick.next, NavClick.prev]).currentPage ∧
     (applyNavClicks exampleState [NavClick.next, NavClick.next, NavClick.prev]).currentPage ≤
       (applyNavClicks exampleState [NavClick.next, NavClick.next, NavClick.prev]).totalPages) ∧
    (loadPdf true (some 7) "/uploads/a.pdf" exampleState).currentPage = 1 := by
  exact ⟨c9_page_navigation_bounds.1 exampleState _ (by decide) (by decide),
    (c9_page_navigation_bounds.2 exampleState "/uploads/a.pdf" 7 (by decide)).1⟩

/-- C10: addFileToList is idempotent in its filename: when a file button
    with this data-filename already exists the call returns the state
    unchanged, and two consecutive calls with the same filename have the
    same effect as one. -/
theorem c10_addFileToList_idempotent (s : ClientState) (f : String)
    (a a₂ : Bool) (r r₂ : Option Nat) :
    (s.files.contains f = true → addFileToList f a r s = s) ∧
    addFileToList f a₂ r₂ (addFileToList f a r s) = addFileToList f a r s := by
  constructor
  · intro hmem
    have hmem' : f ∈ s.files := by simpa using hmem
    simp [addFileToList, hmem']
  · by_cases hmem : f ∈ s.files
    · have h1 : addFileToList f a r s = s := by simp [addFileToList, hmem]
      rw [h1]
      simp [addFileToList, hmem]
    · have hfiles : (addFileToList f a r s).files = f :: s.files := by
        simp [addFileToList, hmem, updateChatStatus, showNotification, enableChat,
          loadPdf_files]
        split <;> rfl
      set t := addFileToList f a r s with ht
      have hmem2 : t.files.contains f = true := by
        rw [hfiles]; simp
      simp only [addFileToList]
      rw [if_pos hmem2]

/-- Closed instance of c10_addFileToList_idempotent at a concrete state. -/
theorem c10_addFileToList_idempotent_witness :
    addFileToList "a.pdf" true (some 1) exampleState = exampleState := by
  exact (c10_addFileToList_idempotent exampleState "a.pdf" true true (some 1) (some 1)).1
    (by decide)

/-- C3 counterexample: no fetch-issuing operation of the client script
    requests /select_document, so the claim that the client references all
    seven listed endpoints fails at this path. -/
theorem c3_counterexample :
    ¬ ("/select_document" ∈ allClientOps.map requestPath) := by
  decide

/-- C3 (amended): the client script issues HTTP requests to /upload, /ask,
    /feedback, /history, /clear_chat and /delete, but to none of its
    operations corresponds a request to /select_document (that endpoint
    appears only in the repository's API notes). -/
theorem c3_endpoints :
    (["/upload", "/ask", "/feedback", "/history", "/clear_chat", "/delete"].all
      (fun p => (allClientOps.map requestPath).contains p) = true) ∧
    ((allClientOps.map requestPath).contains "/select_document" = false) := by
  decide

/-- C6 counterexample: a network failure of the history-load operation
    produces zero user-visible error reports (its catch handler only logs
    to the console), not exactly one as claimed. -/
theorem c6_counterexample :
    ¬ ((userVisibleErrorReports (runOp ClientOp.historyLoad NetOutcome.netFailure)).length
        = 1) := by
  decide

/-- C6 (amended): every operation issues its request exactly once and never
    re-issues it; on an error response or a network failure, upload, ask,
    feedback, clear-chat and delete produce exactly one user-visible error
    report, while the history load produces none; a failed /ask appends the
    fixed apology message and sets the chat status to Error. -/
theorem c6_no_retry (op : ClientOp) (msg : String) :
    ((runOp op NetOutcome.ok).requests.count (requestPath op) = 1 ∧
     (runOp op (NetOutcome.errResponse msg)).requests.count (requestPath op) = 1 ∧
     (runOp op NetOutcome.netFailure).requests.count (requestPath op) = 1) ∧
    (op ≠ ClientOp.historyLoad →
      (userVisibleErrorReports (runOp op (NetOutcome.errResponse msg))).length = 1 ∧
      (userVisibleErrorReports (runOp op NetOutcome.netFailure)).length = 1) ∧
    ((userVisibleErrorReports (runOp ClientOp.historyLoad (NetOutcome.errResponse msg))).length
        = 0 ∧
     (userVisibleErrorReports (runOp ClientOp.historyLoad NetOutcome.netFailure)).length = 0) ∧
    ((runOp ClientOp.ask NetOutcome.netFailure).errorChatMessages =
       ["Sorry, I encountered an error. Please try again."] ∧
     (runOp ClientOp.ask NetOutcome.netFailure).finalChatStatus = some "Error") := by
  refine ⟨?_, ?_, ⟨rfl, rfl⟩, ⟨rfl, rfl⟩⟩
  · cases op <;> exact ⟨rfl, rfl, rfl⟩
  · intro hop
    cases op <;>
      first
      | exact absurd rfl hop
      | exact ⟨by simp [runOp, userVisibleErrorReports],
               by simp [runOp, userVisibleErrorReports]⟩

/-- Closed instance of c6_no_retry at concrete operations. -/
theorem c6_no_retry_witness :
    (runOp ClientOp.upload NetOutcome.netFailure).requests.count "/upload" = 1 ∧
    (userVisibleErrorReports (runOp ClientOp.upload NetOutcome.netFailure)).length = 1 ∧
    (runOp ClientOp.ask NetOutcome.netFailure).finalChatStatus = some "Error" := by
  exact ⟨(c6_no_retry ClientOp.upload "x").1.2.2,
    ((c6_no_retry ClientOp.upload "x").2.1 (by decide)).2,
    (c6_no_retry ClientOp.ask "x").2.2.2.2⟩

/-- C4: a like click sends exactly one POST /feedback with type like and
    empty additional info when the container's question, answer and filename
    are non-empty; a dislike click opens the modal, and the modal submit
    sends a dislike POST exactly when the trimmed feedback text is
    non-empty; a missing filename or missing question/answer yields an error
    notification and no request. -/
theorem c4_feedback_capture (q a fn t : String) :
    (q ≠ "" → a ≠ "" → fn ≠ "" →
      feedbackButtonClick "like" q a fn =
        FeedbackClickOutcome.immediate (FeedbackResult.sent fn q a "like" "")) ∧
    feedbackButtonClick "dislike" q a fn = FeedbackClickOutcome.modalOpened ∧
    (q ≠ "" → a ≠ "" → fn ≠ "" →
      ((∃ info, dislikeModalSubmit q a fn t =
          DislikeModalResult.submitted (FeedbackResult.sent fn q a "dislike" info)) ↔
        jsTrim t ≠ "")) ∧
    (fn = "" →
      feedbackButtonClick "like" q a fn =
        FeedbackClickOutcome.immediate
          (FeedbackResult.errorNotice "Cannot determine which document this feedback is for")) ∧
    (fn ≠ "" → (q = "" ∨ a = "") →
      feedbackButtonClick "like" q a fn =
        FeedbackClickOutcome.immediate
          (FeedbackResult.errorNotice "Missing required information for feedback")) := by
  refine ⟨fun hq ha hfn => ?_, ?_, fun hq ha hfn => ?_, fun hfn => ?_, fun hfn hqa => ?_⟩
  · simp [feedbackButtonClick, sendFeedback, hq, ha, hfn]
  · simp [feedbackButtonClick]
  · constructor
    · rintro ⟨info, hinfo⟩ hT
      simp [dislikeModalSubmit, hT] at hinfo
    · intro hT
      refine ⟨jsTrim t, ?_⟩
      simp [dislikeModalSubmit, hT, sendFeedback, hq, ha, hfn]
  · simp [feedbackButtonClick, sendFeedback, hfn]
  · rcases hqa with hq | ha
    · simp [feedbackButtonClick, sendFeedback, hfn, hq]
    · simp [feedbackButtonClick, sendFeedback, hfn, ha]

/-- Closed instance of c4_feedback_capture at concrete strings. -/
theorem c4_feedback_capture_witness :
    feedbackButtonClick "like" "q0" "a0" "doc.pdf" =
      FeedbackClickOutcome.immediate (FeedbackResult.sent "doc.pdf" "q0" "a0" "like" "") ∧
    (∃ info, dislikeModalSubmit "q0" "a0" "doc.pdf" " bad " =
      DislikeModalResult.submitted (FeedbackResult.sent "doc.pdf" "q0" "a0" "dislike" info)) := by
  have h := c4_feedback_capture "q0" "a0" "doc.pdf" " bad "
  exact ⟨h.1 (by decide) (by decide) (by decide),
    (h.2.2.1 (by decide) (by decide) (by decide)).mpr (by decide)⟩

theorem isPrefixList_refl (w : List Char) : isPrefixList w w = true := by
  induction w with
  | nil => rfl
  | cons c cs ih => simp [isPrefixList, ih]

theorem containsSub_self (w : List Char) : containsSub w w = true := by
  cases w with
  | nil => rfl
  | cons c cs => simp [containsSub, isPrefixList_refl]

theorem isPrefixList_append (w s t : List Char) (h : isPrefixList w s = true) :
    isPrefixList w (s ++ t) = true := by
  induction w generalizing s with
  | nil => rfl
  | cons a as ih =>
    cases s with
    | nil => cases h
    | cons b bs =>
      simp only [isPrefixList, Bool.and_eq_true] at h
      simp only [List.cons_append, isPrefixList, Bool.and_eq_true]
      exact ⟨h.1, ih bs h.2⟩

theorem containsSub_nilWord (s : List Char) : containsSub s [] = true := by
  cases s <;> simp [containsSub, isPrefixList]

theorem containsSub_append_left (s t w : List Char) (h : containsSub s w = true) :
    containsSub (s ++ t) w = true := by
  induction s with
  | nil =>
    have hw : w = [] := by simpa [containsSub, List.isEmpty_iff] using h
    subst hw
    exact containsSub_nilWord t
  | cons a r ih =>
    rw [List.cons_append]
    simp only [containsSub, Bool.or_eq_true] at h ⊢
    rcases h with h | h
    · left
      have h2 := isPrefixList_append w (a :: r) t h
      rwa [List.cons_append] at h2
    · right
      exact ih h

theorem containsSub_append_right (s t w : List Char) (h : containsSub t w = true) :
    containsSub (s ++ t) w = true := by
  induction s with
  | nil => simpa using h
  | cons a r ih =>
    rw [List.cons_append]
    simp only [containsSub, Bool.or_eq_true]
    right
    exact ih

theorem strData_append (s t : String) : (s ++ t).data = s.data ++ t.data := by
  cases s
  cases t
  rfl

theorem strContains_append_left (s t w : String) (h : strContains s w = true) :
    strContains (s ++ t) w = true := by
  unfold strContains at h ⊢
  rw [strData_append]
  exact containsSub_append_left _ _ _ h

theorem strContains_append_right (s t w : String) (h : strContains t w = true) :
    strContains (s ++ t) w = true := by
  unfold strContains at h ⊢
  rw [strData_append]
  exact containsSub_append_right _ _ _ h

theorem strContains_self (w : String) : strContains w w = true :=
  containsSub_self _

/-- C5: every assistant message is rendered from converter.makeHtml of its
    content and carries the like and dislike feedback buttons, while every
    user message is inserted as its raw text, independently of the markdown
    converter, inside a template that contains no feedback button. -/
theorem c5_markdown_delegation (makeHtml makeHtml₂ encodeURIComponent : String → String)
    (selectedFile : Option String) (content : String) (sourcePage : Option Nat)
    (question filename : Option String) :
    strContains (appendMessageHtml makeHtml encodeURIComponent selectedFile "assistant"
        content sourcePage question filename) (makeHtml content) = true ∧
    strContains (appendMessageHtml makeHtml encodeURIComponent selectedFile "assistant"
        content sourcePage question filename) "data-feedback=\"like\"" = true ∧
    strContains (appendMessageHtml makeHtml encodeURIComponent selectedFile "assistant"
        content sourcePage question filename) "data-feedback=\"dislike\"" = true ∧
    appendMessageHtml makeHtml encodeURIComponent selectedFile "user" content sourcePage
        question filename = userMsgHeader ++ content ++ userMsgSuffix ∧
    appendMessageHtml makeHtml encodeURIComponent selectedFile "user" content sourcePage
        question filename =
      appendMessageHtml makeHtml₂ encodeURIComponent selectedFile "user" content sourcePage
        question filename ∧
    strContains (userMsgHeader ++ userMsgSuffix) "feedback-btn" = false := by
  have hrole : ¬ (("assistant" : String) = "user") := by decide
  refine ⟨?_, ?_, ?_, ?_, ?_, by decide⟩
  · simp only [appendMessageHtml, if_neg hrole]
    unfold botMessageHtml
    apply strContains_append_left
    apply strContains_append_left
    apply strContains_append_left
    apply strContains_append_left
    exact strContains_append_right _ _ _ (strContains_self _)
  · simp only [appendMessageHtml, if_neg hrole]
    unfold botMessageHtml
    apply strContains_append_left
    apply strContains_append_right
    unfold feedbackContainerHtml
    apply strContains_append_left
    apply strContains_append_left
    exact strContains_append_right _ _ _ (by decide)
  · simp only [appendMessageHtml, if_neg hrole]
    unfold botMessageHtml
    apply strContains_append_left
    apply strContains_append_right
    unfold feedbackContainerHtml
    apply strContains_append_left
    exact strContains_append_right _ _ _ (by decide)
  · simp [appendMessageHtml]
  · simp [appendMessageHtml]

/-- C8: a POST /upload is issued exactly when a file is chosen, its type is
    application/pdf and its size is at most 10*1024*1024 bytes; otherwise
    the matching alert is shown and no request is made. -/
theorem c8_upload_validation (file : Option ChosenFile) :
    (uploadSubmit file = UploadAction.request "/upload" ↔
      ∃ f, file = some f ∧ f.type' = "application/pdf" ∧ f.size ≤ 10 * 1024 * 1024) ∧
    (uploadSubmit file = UploadAction.alert "Please select a PDF file." ↔
      (file = none ∨ ∃ f, file = some f ∧ f.type' ≠ "application/pdf")) ∧
    (uploadSubmit file = UploadAction.alert "File size must be less than 10MB." ↔
      ∃ f, file = some f ∧ f.type' = "application/pdf" ∧ f.size > 10 * 1024 * 1024) ∧
    (uploadSubmit file = UploadAction.request "/upload" ∨
     uploadSubmit file = UploadAction.alert "Please select a PDF file." ∨
     uploadSubmit file = UploadAction.alert "File size must be less than 10MB.") := by
  cases file with
  | none => refine ⟨?_, ?_, ?_, ?_⟩ <;> simp [uploadSubmit]
  | some f =>
    by_cases ht : f.type' = "application/pdf"
    · by_cases hs : f.size > 10 * 1024 * 1024
      · refine ⟨?_, ?_, ?_, ?_⟩ <;> simp [uploadSubmit, ht, hs]
      · refine ⟨?_, ?_, ?_, ?_⟩
        · simp [uploadSubmit, ht, hs]
          omega
        · simp [uploadSubmit, ht, hs]
        · simp [uploadSubmit, ht, hs]
        · simp [uploadSubmit, ht, hs]
    · refine ⟨?_, ?_, ?_, ?_⟩ <;> simp [uploadSubmit, ht]

end ExpertMind
